import Mathlib

/-
Shallow embedding of src/src/main.cpp (HC12 morse-code transceiver).

Modelling conventions:
- Pin writes, delays, serial diagnostics and radio transmissions become an
  explicit event trace (`Ev`); `digitalWrite`/`delay`/`Serial.print`/
  `morse.println` each append one event.
- Time is idealized to exact milliseconds: `millis()` readings are modelled
  as exact Nat timestamps, so `delay(50)` advances time by exactly 50.
- The compile-time constant flags of the source (`toTestBuzzerLedAndButton =
  false`, `hcTestMode = false`) make `loopBuzzerLedAndButtonTest` and
  `loopHcTestMode` no-ops, so the per-tick behaviour of `loop` (lines
  238-262) reduces to the inbound/else branch modelled by `loopTick`.
- Arduino `String::toInt` is `atol` on the buffer: skip leading whitespace,
  optional sign, then a maximal run of decimal digits (0 when there are no
  digits). Modelled exactly over unbounded Int (the claims only involve
  small values, far from `long` overflow).
-/

namespace HC12Morse

/-- Logic level of an output pin: HIGH or LOW. -/
inductive Level
  | high
  | low
deriving DecidableEq, Repr

/-- The output pins the program drives (source lines 4-8). -/
inductive Pin
  | led
  | buzzer
  | hc12set
deriving DecidableEq, Repr

/-- One observable side effect of the program. -/
inductive Ev
  | pinWrite (p : Pin) (l : Level)
  | delayMs (ms : Nat)
  | serialOut (s : String)
  | txLine (s : String)
deriving DecidableEq, Repr

/-- Source line 23: dash render duration, ms. -/
def dashDuration : Nat := 600

/-- Source line 24: dot render duration, ms. -/
def dotDuration : Nat := 200

/-- Source line 25: off-time between symbols, ms (the spec's interSymbolGap). -/
def morseInterval : Nat := 1000

/-- Source line 192: fixed post-release debounce, ms. -/
def debounceDelay : Nat := 50

/-- State of the LED and buzzer output pins. -/
structure PinState where
  led : Level
  buzzer : Level
deriving DecidableEq, Repr

/-- Both outputs de-asserted. -/
def bothLow : PinState := ⟨Level.low, Level.low⟩

/-- Effect of one `digitalWrite` on the LED/buzzer state (writes to other
pins leave it unchanged). -/
def PinState.write (s : PinState) (p : Pin) (l : Level) : PinState :=
  match p with
  | Pin.led => { s with led := l }
  | Pin.buzzer => { s with buzzer := l }
  | Pin.hc12set => s

/-- Effect of one event on the LED/buzzer pin state. -/
def applyEv (s : PinState) (e : Ev) : PinState :=
  match e with
  | Ev.pinWrite p l => s.write p l
  | _ => s

/-- Final LED/buzzer state after running a trace from state `s`. -/
def runEvents (s : PinState) (evs : List Ev) : PinState :=
  evs.foldl applyEv s

/-- The timed phases of a trace: for each `delay`, the pin state held during
it, paired with its duration. -/
def phases : PinState → List Ev → List (PinState × Nat)
  | _, [] => []
  | s, Ev.pinWrite p l :: rest => phases (s.write p l) rest
  | s, Ev.delayMs ms :: rest => (s, ms) :: phases s rest
  | s, _ :: rest => phases s rest

/-- The LED/buzzer writes occurring in a trace. -/
def pinWrites (evs : List Ev) : List (Pin × Level) :=
  evs.filterMap fun e =>
    match e with
    | Ev.pinWrite Pin.led l => some (Pin.led, l)
    | Ev.pinWrite Pin.buzzer l => some (Pin.buzzer, l)
    | _ => none

/-- The frames written to the radio (`morse.println`) in a trace. -/
def txFrames (evs : List Ev) : List String :=
  evs.filterMap fun e =>
    match e with
    | Ev.txLine s => some s
    | _ => none

/-- Source lines 38-45: `beep(times, duration)` — toggle the buzzer
`times` times, each half-period `duration` ms (the for loop becomes
structural recursion on `times`). -/
def beep : Nat → Nat → List Ev
  | 0, _ => []
  | n + 1, d =>
    Ev.pinWrite Pin.buzzer Level.high :: Ev.delayMs d ::
    Ev.pinWrite Pin.buzzer Level.low :: Ev.delayMs d :: beep n d

/-- Source lines 147-160: `blink(_isDot)` — assert LED and buzzer, hold
for the dot or dash duration, de-assert both, wait `morseInterval`. -/
def blink (isDot : Bool) : List Ev :=
  [Ev.pinWrite Pin.led Level.high,
   Ev.pinWrite Pin.buzzer Level.high,
   Ev.delayMs (if isDot then dotDuration else dashDuration),
   Ev.pinWrite Pin.led Level.low,
   Ev.pinWrite Pin.buzzer Level.low,
   Ev.delayMs morseInterval]

/-- Source lines 163-171: `morseBlink(_value)` — 1 renders a dot, 2 a dash,
anything else only prints a diagnostic. -/
def morseBlink (v : Int) : List Ev :=
  if v = 1 then blink true
  else if v = 2 then blink false
  else [Ev.serialOut "Invalid morse value. Please send 1 for dot or 2 for dash."]

/-- Whitespace characters skipped by `atol`. -/
def isSpaceChar (c : Char) : Bool :=
  c = ' ' || c = '\t' || c = '\n' || c = '\x0b' || c = '\x0c' || c = '\r'

/-- Maximal leading run of decimal digits, accumulated left to right. -/
def digitsVal : List Char → Nat → Nat
  | [], acc => acc
  | c :: cs, acc =>
    if c.isDigit then digitsVal cs (acc * 10 + (c.toNat - Char.toNat '0'))
    else acc

/-- C `atol` semantics on a character list: skip whitespace, optional sign,
parse a maximal digit run (0 if none). -/
def atol (cs : List Char) : Int :=
  match cs.dropWhile isSpaceChar with
  | '-' :: rest => -(digitsVal rest 0 : Int)
  | '+' :: rest => (digitsVal rest 0 : Int)
  | rest => (digitsVal rest 0 : Int)

/-- Arduino `String::toInt` (used at source lines 97 and 247). -/
def toInt (s : String) : Int :=
  atol s.data

/-- Decimal rendering used by `Serial.println(int)` / `morse.println(int)`. -/
def intPrint (m : Int) : String :=
  toString m

/-- Source lines 196-200: classify the finalized press duration —
0 (NONE) by default, 1 (DOT) when 100 < d ≤ 1000, 2 (DASH) when d > 1000. -/
def classifyPress (pressDuration : Nat) : Int :=
  if 100 < pressDuration ∧ pressDuration ≤ 1000 then 1
  else if 1000 < pressDuration then 2
  else 0

/-- Source lines 180-190: the dash-warning logic inside the hold loop,
folded over the successive `holdDuration` samples with the local
`dashBeeped` flag; yields the sample values at which the short beep fired. -/
def dashWarnFires : List Nat → Bool → List Nat
  | [], _ => []
  | d :: rest, beeped =>
    if beeped = false ∧ 1000 < d then d :: dashWarnFires rest true
    else dashWarnFires rest beeped

/-- Source lines 180-190 again, as the emitted event trace (buzzer HIGH,
100 ms, buzzer LOW at each firing sample). -/
def dashWarnEvents : List Nat → Bool → List Ev
  | [], _ => []
  | d :: rest, beeped =>
    if beeped = false ∧ 1000 < d then
      Ev.pinWrite Pin.buzzer Level.high :: Ev.delayMs 100 ::
      Ev.pinWrite Pin.buzzer Level.low :: dashWarnEvents rest true
    else dashWarnEvents rest beeped

/-- One press-and-release cycle observed by `talkMorse`:
`pressTime` is `millis()` at press detection (line 178), `releaseTime` is
`millis()` when the hold loop exits (line 190), and `samples` are the
`holdDuration` values read inside the hold loop (line 181). -/
structure Hold where
  pressTime : Nat
  releaseTime : Nat
  samples : List Nat
deriving DecidableEq, Repr

/-- Source line 194: `millis() - lastButtonPressTime` evaluated after the
50 ms debounce delay, so at time `releaseTime + debounceDelay`. -/
def talkMorsePressDuration (h : Hold) : Nat :=
  h.releaseTime + debounceDelay - h.pressTime

/-- Source lines 173-204: the value returned by `talkMorse()` — 0 when the
button was never pressed this tick, otherwise the classification of the
debounced press duration. -/
def talkMorse (press : Option Hold) : Int :=
  match press with
  | none => 0
  | some h => classifyPress (talkMorsePressDuration h)

/-- The event trace of one `talkMorse()` call: nothing on the fast path;
during a hold, the dash-warning beeps then the debounce delay. -/
def talkEvents (press : Option Hold) : List Ev :=
  match press with
  | none => []
  | some h => dashWarnEvents h.samples false ++ [Ev.delayMs debounceDelay]

/-- The inbound branch of `loop` (source lines 242-251): print the frame,
parse it, and render via `morseBlink` only when the parse is positive. -/
def inboundHandle (msg : String) : List Ev :=
  Ev.serialOut "Received: " :: Ev.serialOut msg ::
  (if 0 < toInt msg then morseBlink (toInt msg) else [])

/-- What the environment offers one `loop` iteration: a complete inbound
frame (when `morse.available()`), and the button press cycle (if any). -/
structure TickInput where
  inbound : Option String
  press : Option Hold
deriving DecidableEq, Repr

/-- Result of one `loop` iteration. -/
structure TickResult where
  buttonPolled : Bool
  events : List Ev
deriving DecidableEq, Repr

/-- Source lines 238-262: one `loop` iteration. If an inbound frame is
available it is decoded and rendered and the button is not polled;
otherwise `talkMorse` polls the button and a positive result is printed
and transmitted. -/
def loopTick (inp : TickInput) : TickResult :=
  match inp.inbound with
  | some msg => ⟨false, inboundHandle msg⟩
  | none =>
    let m := talkMorse inp.press
    ⟨true,
      talkEvents inp.press ++
      (if 0 < m then
        [Ev.serialOut "Sending: ", Ev.serialOut (intPrint m),
         Ev.txLine (intPrint m)]
      else [])⟩

/-- The spec's Symbol data type. -/
inductive Symbol
  | NONE
  | DOT
  | DASH
deriving DecidableEq, Repr

/-- The symbol an inbound frame is rendered as, read off the receive path
(loop lines 247-251 composed with the `morseBlink` dispatch, lines
163-171): parse 1 renders a dot, parse 2 a dash, anything else nothing. -/
def decode (f : String) : Symbol :=
  if toInt f = 1 then Symbol.DOT
  else if toInt f = 2 then Symbol.DASH
  else Symbol.NONE

/-- Arduino `String::startsWith(pre)` on `s`: character-level test that
`pre` is a prefix of `s`. -/
def strStartsWith (s pre : String) : Bool :=
  pre.data.isPrefixOf s.data

/-- Result of the HC-12 handshake `setupHc12()` (source lines 116-145):
the returned Bool and the final level of the SET pin, as a function of the
module's response line (`none` when nothing was available). -/
def setupHc12 (response : Option String) : Bool × Level :=
  match response with
  | some r => (strStartsWith r "OK", Level.high)
  | none => (false, Level.high)

/-- Source lines 224-232: the beep pattern `setup()` emits after the
handshake — 5 fast beeps (150 ms) on success, 5 slow beeps (500 ms) on
failure. `setup` then falls through to `loop` in either case. -/
def setupBeep (response : Option String) : List Ev :=
  if (setupHc12 response).1 then beep 5 150 else beep 5 500

/-- Count of buzzer-HIGH writes in a trace (each short warning beep
contributes exactly one). -/
def buzzerOnCount (evs : List Ev) : Nat :=
  (evs.filter fun e => decide (e = Ev.pinWrite Pin.buzzer Level.high)).length

/-- The actuation the spec's `render` performs for a symbol: dot blink,
dash blink, or nothing. -/
def renderOf : Symbol → List Ev
  | Symbol.DOT => blink true
  | Symbol.DASH => blink false
  | Symbol.NONE => []

theorem classifyPress_eq_zero_iff (d : Nat) : classifyPress d = 0 ↔ d ≤ 100 := by
  unfold classifyPress
  split
  · omega
  · split <;> omega

theorem classifyPress_eq_one_iff (d : Nat) :
    classifyPress d = 1 ↔ 100 < d ∧ d ≤ 1000 := by
  unfold classifyPress
  split
  · omega
  · split <;> omega

theorem classifyPress_eq_two_iff (d : Nat) : classifyPress d = 2 ↔ 1000 < d := by
  unfold classifyPress
  split
  · omega
  · split <;> omega

theorem classifyPress_cases (d : Nat) :
    classifyPress d = 0 ∨ classifyPress d = 1 ∨ classifyPress d = 2 := by
  unfold classifyPress
  split
  · exact Or.inr (Or.inl rfl)
  · split
    · exact Or.inr (Or.inr rfl)
    · exact Or.inl rfl

theorem txFrames_append (a b : List Ev) :
    txFrames (a ++ b) = txFrames a ++ txFrames b :=
  List.filterMap_append a b _

theorem pinWrites_append (a b : List Ev) :
    pinWrites (a ++ b) = pinWrites a ++ pinWrites b :=
  List.filterMap_append a b _

theorem txFrames_blink (isDot : Bool) : txFrames (blink isDot) = [] := rfl

theorem txFrames_morseBlink (v : Int) : txFrames (morseBlink v) = [] := by
  unfold morseBlink
  split
  · rfl
  · split
    · rfl
    · rfl

theorem txFrames_dashWarnEvents (l : List Nat) :
    ∀ b : Bool, txFrames (dashWarnEvents l b) = [] := by
  induction l with
  | nil => intro b; rfl
  | cons d rest ih =>
    intro b
    unfold dashWarnEvents
    split
    · simpa [txFrames] using ih true
    · exact ih b

theorem txFrames_talkEvents (press : Option Hold) :
    txFrames (talkEvents press) = [] := by
  cases press with
  | none => rfl
  | some h =>
    show txFrames (dashWarnEvents h.samples false ++ [Ev.delayMs debounceDelay]) = []
    rw [txFrames_append, txFrames_dashWarnEvents]
    rfl

theorem pinWrites_morseBlink_invalid (v : Int) (h1 : v ≠ 1) (h2 : v ≠ 2) :
    pinWrites (morseBlink v) = [] := by
  unfold morseBlink
  rw [if_neg h1, if_neg h2]
  rfl

theorem txFrames_inboundHandle (msg : String) :
    txFrames (inboundHandle msg) = [] := by
  unfold inboundHandle
  show txFrames (if 0 < toInt msg then morseBlink (toInt msg) else []) = []
  split
  · exact txFrames_morseBlink _
  · rfl

theorem runEvents_append (s : PinState) (a b : List Ev) :
    runEvents s (a ++ b) = runEvents (runEvents s a) b :=
  List.foldl_append _ _ a b

theorem runEvents_blink (s : PinState) (isDot : Bool) :
    runEvents s (blink isDot) = bothLow := rfl

theorem runEvents_beep (n d : Nat) :
    ∀ l : Level, runEvents ⟨l, Level.low⟩ (beep n d) = ⟨l, Level.low⟩ := by
  induction n with
  | zero => intro l; rfl
  | succ k ih =>
    intro l
    simpa [beep, runEvents, applyEv, PinState.write] using ih l

theorem dashWarnFires_true (l : List Nat) : dashWarnFires l true = [] := by
  induction l with
  | nil => rfl
  | cons d rest ih => simpa [dashWarnFires] using ih

theorem dashWarnFires_false_eq_find (l : List Nat) :
    dashWarnFires l false = (l.find? fun d => decide (1000 < d)).toList := by
  induction l with
  | nil => rfl
  | cons d rest ih =>
    by_cases hd : 1000 < d
    · simp [dashWarnFires, hd, List.find?, dashWarnFires_true]
    · simp [dashWarnFires, hd, List.find?, ih]

theorem buzzerOnCount_dashWarnEvents (l : List Nat) :
    ∀ b : Bool, buzzerOnCount (dashWarnEvents l b) = (dashWarnFires l b).length := by
  induction l with
  | nil => intro b; rfl
  | cons d rest ih =>
    intro b
    unfold dashWarnEvents dashWarnFires
    split
    · simpa [buzzerOnCount] using ih true
    · exact ih b

theorem talkMorse_cases (p : Option Hold) :
    talkMorse p = 0 ∨ talkMorse p = 1 ∨ talkMorse p = 2 := by
  cases p with
  | none => exact Or.inl rfl
  | some h => exact classifyPress_cases _

theorem pinWrites_inboundHandle (f : String) :
    pinWrites (inboundHandle f) = pinWrites (renderOf (decode f)) := by
  have step : pinWrites (inboundHandle f) =
      pinWrites (if 0 < toInt f then morseBlink (toInt f) else []) := rfl
  rw [step]
  unfold decode
  by_cases h1 : toInt f = 1
  · rw [h1]; rfl
  · rw [if_neg h1]
    by_cases h2 : toInt f = 2
    · rw [h2]; rfl
    · rw [if_neg h2]
      by_cases h0 : 0 < toInt f
      · rw [if_pos h0, pinWrites_morseBlink_invalid _ h1 h2]; rfl
      · rw [if_neg h0]; rfl

theorem txFrames_loopTick_some (msg : String) (press : Option Hold) :
    txFrames (loopTick ⟨some msg, press⟩).events = [] :=
  txFrames_inboundHandle msg

theorem txFrames_loopTick_none (press : Option Hold) :
    txFrames (loopTick ⟨none, press⟩).events =
      if 0 < talkMorse press then [intPrint (talkMorse press)] else [] := by
  show txFrames (talkEvents press ++
    (if 0 < talkMorse press then
      [Ev.serialOut "Sending: ", Ev.serialOut (intPrint (talkMorse press)),
       Ev.txLine (intPrint (talkMorse press))]
    else [])) = _
  rw [txFrames_append, txFrames_talkEvents]
  split
  · rfl
  · rfl

/-- C1: the classifier of `talkMorse` partitions all finalized hold
durations: NONE (0) exactly when d ≤ 100 ms, DOT (1) exactly when
100 < d ≤ 1000 ms, DASH (2) exactly when d > 1000 ms; the last disjunct
shows the three cases exhaust every duration, and the iffs show they do
not overlap. -/
theorem classify_partition (d : Nat) :
    (classifyPress d = 0 ↔ d ≤ 100) ∧
    (classifyPress d = 1 ↔ 100 < d ∧ d ≤ 1000) ∧
    (classifyPress d = 2 ↔ 1000 < d) ∧
    (classifyPress d = 0 ∨ classifyPress d = 1 ∨ classifyPress d = 2) :=
  ⟨classifyPress_eq_zero_iff d, classifyPress_eq_one_iff d,
   classifyPress_eq_two_iff d, classifyPress_cases d⟩

/-- C2: on a tick with an inbound frame available the loop renders exactly
that frame's decoded symbol and does not poll the button; the button is
polled exactly on ticks with no inbound frame; and a transmission can only
occur on a tick with no inbound frame, so an inbound render and a local
transmit never share a tick. -/
theorem inbound_priority (inp : TickInput) :
    ((loopTick inp).buttonPolled = true ↔ inp.inbound = none) ∧
    (∀ f, inp.inbound = some f →
      pinWrites (loopTick inp).events = pinWrites (renderOf (decode f))) ∧
    (txFrames (loopTick inp).events ≠ [] → inp.inbound = none) := by
  obtain ⟨inb, press⟩ := inp
  cases inb with
  | none =>
    refine ⟨by simp [loopTick], ?_, fun _ => rfl⟩
    intro f hf
    exact Option.noConfusion hf
  | some msg =>
    refine ⟨by simp [loopTick], ?_, ?_⟩
    · intro f hf
      injection hf with hf2
      subst hf2
      exact pinWrites_inboundHandle msg
    · intro hne
      exact (hne (txFrames_inboundHandle msg)).elim

/-- Witness for C2 at the concrete tick input (inbound frame "1", no
press). -/
theorem inbound_priority_witness :
    pinWrites (loopTick ⟨some "1", none⟩).events =
      pinWrites (renderOf (decode "1")) ∧
    ((loopTick ⟨some "1", none⟩).buttonPolled = true ↔
      (some "1" : Option String) = none) :=
  ⟨(inbound_priority ⟨some "1", none⟩).2.1 "1" rfl,
   (inbound_priority ⟨some "1", none⟩).1⟩

/-- C3: decoding is total and defensive — any inbound frame whose integer
parse is neither 1 nor 2 decodes to NONE and the receive tick performs no
LED or buzzer write at all. -/
theorem malformed_inbound_silent (f : String) (press : Option Hold)
    (h1 : toInt f ≠ 1) (h2 : toInt f ≠ 2) :
    decode f = Symbol.NONE ∧
    pinWrites (loopTick ⟨some f, press⟩).events = [] := by
  have hd : decode f = Symbol.NONE := by simp [decode, h1, h2]
  refine ⟨hd, ?_⟩
  have := pinWrites_inboundHandle f
  rw [show (loopTick ⟨some f, press⟩).events = inboundHandle f from rfl, this, hd]
  rfl

/-- Witness for C3 at the malformed frames "9", "" and "abc". -/
theorem malformed_inbound_silent_witness :
    (decode "9" = Symbol.NONE ∧
      pinWrites (loopTick ⟨some "9", none⟩).events = []) ∧
    (decode "" = Symbol.NONE ∧
      pinWrites (loopTick ⟨some "", none⟩).events = []) ∧
    (decode "abc" = Symbol.NONE ∧
      pinWrites (loopTick ⟨some "abc", none⟩).events = []) :=
  ⟨malformed_inbound_silent "9" none (by decide) (by decide),
   malformed_inbound_silent "" none (by decide) (by decide),
   malformed_inbound_silent "abc" none (by decide) (by decide)⟩

/-- C4: the codec round-trips on well-formed frames — "1" decodes to DOT,
"2" decodes to DASH, and re-encoding the decoded value (the decimal print
the transmit path applies, line 259) yields the original frame. -/
theorem codec_roundtrip :
    decode "1" = Symbol.DOT ∧ decode "2" = Symbol.DASH ∧
    intPrint (toInt "1") = "1" ∧ intPrint (toInt "2") = "2" := by
  refine ⟨rfl, rfl, ?_, ?_⟩ <;> decide

/-- C5: from any initial pin state, rendering a dot holds LED and buzzer
HIGH for exactly `dotDuration` then both LOW for `morseInterval` (the
inter-symbol gap); a dash does the same with `dashDuration`; and the
timing constants satisfy 0 < dotDuration < dashDuration with a positive
gap. The constants are Lean definitions fixed at lines 23-25 of the
source and are never reassigned anywhere in it. -/
theorem render_timing (s : PinState) :
    phases s (blink true) =
      [(⟨Level.high, Level.high⟩, dotDuration), (bothLow, morseInterval)] ∧
    phases s (blink false) =
      [(⟨Level.high, Level.high⟩, dashDuration), (bothLow, morseInterval)] ∧
    dotDuration < dashDuration ∧ 0 < dotDuration ∧ 0 < dashDuration ∧
    0 < morseInterval := by
  obtain ⟨l, b⟩ := s
  exact ⟨rfl, rfl, by decide, by decide, by decide, by decide⟩

/-- C6: during a single hold (one `talkMorse` call, whose local `dashBeeped`
flag starts afresh at `false`), the warning fires exactly at the first
sampled hold duration exceeding 1000 ms — `find?` returns the first
satisfying sample — hence at most once, and the emitted buzzer-HIGH count
equals the number of firings. A new call starts again from `false`, so a
subsequent hold can fire again. -/
theorem dash_warning_one_shot (samples : List Nat) :
    dashWarnFires samples false =
      (samples.find? fun d => decide (1000 < d)).toList ∧
    (dashWarnFires samples false).length ≤ 1 ∧
    buzzerOnCount (dashWarnEvents samples false) =
      (dashWarnFires samples false).length := by
  refine ⟨dashWarnFires_false_eq_find samples, ?_,
    buzzerOnCount_dashWarnEvents samples false⟩
  rw [dashWarnFires_false_eq_find]
  cases samples.find? fun d => decide (1000 < d) <;> simp

/-- C7: NONE is never transmitted — the never-pressed fast path returns 0,
a tick whose classification is 0 writes no frame to the radio, and every
frame a tick does transmit is "1" or "2". -/
theorem none_never_transmitted (inp : TickInput) :
    talkMorse none = 0 ∧
    (inp.inbound = none → talkMorse inp.press = 0 →
      txFrames (loopTick inp).events = []) ∧
    (∀ s, s ∈ txFrames (loopTick inp).events → s = "1" ∨ s = "2") := by
  obtain ⟨inb, press⟩ := inp
  cases inb with
  | some msg =>
    refine ⟨rfl, ?_, ?_⟩
    · intro hin _
      exact Option.noConfusion hin
    · intro s hs
      rw [txFrames_loopTick_some] at hs
      exact absurd hs (List.not_mem_nil s)
  | none =>
    refine ⟨rfl, ?_, ?_⟩
    · intro _ hm
      have hm2 : talkMorse press = 0 := hm
      rw [txFrames_loopTick_none, hm2]
      rfl
    · intro s hs
      rw [txFrames_loopTick_none] at hs
      rcases talkMorse_cases press with h | h | h <;> rw [h] at hs
      · simp at hs
      · have hx : (if (0 : Int) < 1 then [intPrint 1] else []) = ["1"] := by decide
        rw [hx] at hs
        exact Or.inl (List.mem_singleton.mp hs)
      · have hx : (if (0 : Int) < 2 then [intPrint 2] else []) = ["2"] := by decide
        rw [hx] at hs
        exact Or.inr (List.mem_singleton.mp hs)

/-- Witness for C7: a 30 ms release-timed hold (80 ms debounced duration)
transmits nothing, and the frame transmitted by a 300 ms hold is "1". -/
theorem none_never_transmitted_witness :
    txFrames (loopTick ⟨none, some ⟨0, 30, []⟩⟩).events = [] ∧
    (("1" : String) = "1" ∨ ("1" : String) = "2") :=
  ⟨(none_never_transmitted ⟨none, some ⟨0, 30, []⟩⟩).2.1 rfl (by decide),
   (none_never_transmitted ⟨none, some ⟨0, 300, []⟩⟩).2.2 "1" (by decide)⟩

/-- C8: the startup handshake is non-fatal in every outcome — the SET pin
ends HIGH (normal operating mode) for every possible response including
none at all, success is signalled by the fast 150 ms beep pattern, failure
(including no response) by the slow 500 ms pattern; `setup` is a total
function of the response, so control always falls through to the main
loop. -/
theorem handshake_nonfatal (response : Option String) :
    (setupHc12 response).2 = Level.high ∧
    ((setupHc12 response).1 = true → setupBeep response = beep 5 150) ∧
    ((setupHc12 response).1 = false → setupBeep response = beep 5 500) ∧
    (response = none → (setupHc12 response).1 = false) := by
  refine ⟨?_, ?_, ?_, ?_⟩
  · cases response <;> rfl
  · intro h
    unfold setupBeep
    rw [h]
    rfl
  · intro h
    unfold setupBeep
    rw [h]
    rfl
  · intro h
    subst h
    rfl

/-- Witness for C8: no response at all still ends with the SET pin HIGH
and the slow failure beeps; an "OK" response gives the fast beeps. -/
theorem handshake_nonfatal_witness :
    ((setupHc12 none).2 = Level.high ∧ setupBeep none = beep 5 500) ∧
    setupBeep (some "OK") = beep 5 150 :=
  ⟨⟨(handshake_nonfatal none).1, (handshake_nonfatal none).2.2.1 rfl⟩,
   (handshake_nonfatal (some "OK")).2.1 (by decide)⟩

/-- C9: the duration `talkMorse` classifies is measured after the fixed
50 ms post-release debounce, so it exceeds the physical press-to-release
hold time by exactly `debounceDelay`; consequently a physical hold just
over 50 ms (and at most 950 ms) already classifies as DOT. -/
theorem debounced_duration (h : Hold) (hle : h.pressTime ≤ h.releaseTime) :
    talkMorsePressDuration h = (h.releaseTime - h.pressTime) + debounceDelay ∧
    (50 < h.releaseTime - h.pressTime → h.releaseTime - h.pressTime ≤ 950 →
      talkMorse (some h) = 1) := by
  constructor
  · unfold talkMorsePressDuration debounceDelay
    omega
  · intro h1 h2
    show classifyPress (talkMorsePressDuration h) = 1
    rw [classifyPress_eq_one_iff]
    unfold talkMorsePressDuration debounceDelay
    omega

/-- Witness for C9: a 51 ms physical hold (press at 0, release at 51)
is measured as 101 ms and classifies as DOT. -/
theorem debounced_duration_witness :
    talkMorsePressDuration ⟨0, 51, []⟩ = (51 - 0) + debounceDelay ∧
    talkMorse (some ⟨0, 51, []⟩) = 1 :=
  ⟨(debounced_duration ⟨0, 51, []⟩ (by decide)).1,
   (debounced_duration ⟨0, 51, []⟩ (by decide)).2 (by decide) (by decide)⟩

/-- C10: actuations end de-asserted — `blink` leaves both outputs LOW from
any starting state, and from the de-asserted state (which holds at boot
and, by this very theorem, at every later tick boundary) `morseBlink` with
any value and `beep` with any arguments return with both outputs LOW, so
no render leaves the LED or buzzer stuck on between ticks. -/
theorem actuation_deasserts (s : PinState) (isDot : Bool) (v : Int)
    (times dur : Nat) :
    runEvents s (blink isDot) = bothLow ∧
    runEvents bothLow (morseBlink v) = bothLow ∧
    runEvents bothLow (beep times dur) = bothLow := by
  refine ⟨runEvents_blink s isDot, ?_, runEvents_beep times dur Level.low⟩
  unfold morseBlink
  split
  · exact runEvents_blink _ _
  · split
    · exact runEvents_blink _ _
    · rfl

end HC12Morse
